import Mathlib

/-!
Verification of the TCP packet-sequence generator (`tcp` package):
a shallow embedding of the `Peer` / `Conn` data model and of the
frame-synthesis and connection-lifecycle operations `createPacket`,
`Connect`, `Send`, `Disconnect`, together with theorems about the
frames they emit.
-/

namespace PacketGo

/-- A TCP option, mirroring `layers.TCPOption` from the packet-layering
library: an option type, a length, and option data bytes. -/
structure TCPOption where
  kind : Nat
  length : Nat
  data : List Nat
  deriving DecidableEq, Repr

/-- Flag set of a TCP peer / header: `SYN`, `ACK`, `FIN` booleans,
mirroring the anonymous flags struct inside Go's `Peer`. -/
structure TCPFlags where
  syn : Bool
  ack : Bool
  fin : Bool
  deriving DecidableEq, Repr

/-- A peer of a TCP connection, mirroring Go's `Peer` struct.
`mac` is the parsed hardware address bytes; `ip` is the result of
`net.ParseIP` (a Go `net.IP` slice may be nil, hence `Option`);
`seq` and `ack` are `uint32` values kept as `Nat` with arithmetic
taken modulo `2^32`; `options` is a `[]layers.TCPOption` slice whose
nil and empty states are distinct, hence `Option (List TCPOption)`
with `none` for the nil slice. -/
structure Peer where
  mac : List Nat
  ip : Option (List Nat)
  port : Nat
  seq : Nat
  ack : Nat
  flags : TCPFlags
  options : Option (List TCPOption)
  deriving DecidableEq, Repr

/-- The per-phase option sets of a connection, mirroring the anonymous
`Options` struct inside Go's `Conn`: options for the SYN packet, the
SYNACK packet, and the ACK packet plus the remainder of the connection.
Each Go slice may itself be nil. -/
structure ConnOptions where
  syn : Option (List TCPOption)
  synack : Option (List TCPOption)
  ack : Option (List TCPOption)
  deriving DecidableEq, Repr

/-- The Ethernet header built by `createPacket`, mirroring
`layers.Ethernet`: source and destination MAC and the ethertype. -/
structure Ethernet where
  srcMAC : List Nat
  dstMAC : List Nat
  ethernetType : Nat
  deriving DecidableEq, Repr

/-- The IPv4 header built by `createPacket`, mirroring the fields of
`layers.IPv4` that the code sets. -/
structure IPv4 where
  version : Nat
  flags : Nat
  id : Nat
  ttl : Nat
  protocol : Nat
  srcIP : Option (List Nat)
  dstIP : Option (List Nat)
  deriving DecidableEq, Repr

/-- The TCP header built by `createPacket`, mirroring the fields of
`layers.TCP` that the code sets. `ackn` is the header's `Ack` field;
`options` is nil (`none`) unless the code assigns the sender's
non-nil option slice. -/
structure TCP where
  srcPort : Nat
  dstPort : Nat
  syn : Bool
  ack : Bool
  fin : Bool
  seq : Nat
  ackn : Nat
  window : Nat
  options : Option (List TCPOption)
  deriving DecidableEq, Repr

/-- One synthesized frame: the header stack handed to the serializer
(`gopacket.SerializeLayers`) plus the optional payload.  Serialization
to on-wire bytes (length and checksum fixups) is the external
packet-layering library and is kept abstract: a frame is identified
with the header stack it serializes. -/
structure Frame where
  eth : Ethernet
  ip : IPv4
  tcp : TCP
  payload : Option (List Nat)
  deriving DecidableEq, Repr

/-- `layers.EthernetTypeIPv4`. -/
def ethernetTypeIPv4 : Nat := 0x0800

/-- `layers.IPv4DontFragment` (bit 1 of the IPv4 flags). -/
def ipv4DontFragment : Nat := 2

/-- `layers.IPProtocolTCP`. -/
def ipProtocolTCP : Nat := 6

/-- The frame built by one `createPacket` call, translated field by
field from the Go method body: Ethernet header from the peers' MACs,
IPv4 header with version 4, don't-fragment, id 1, TTL 64, protocol
TCP and the peers' IPs, TCP header from the sender's current flags,
sequence and acknowledgment numbers and the peers' ports, window
64000; the sender's options are copied into the header only when the
slice is non-nil (`if sender.Options != nil`), and the payload is
attached only when non-nil. -/
def mkFrame (sender receiver : Peer) (payload : Option (List Nat)) : Frame :=
  { eth := { srcMAC := sender.mac
           , dstMAC := receiver.mac
           , ethernetType := ethernetTypeIPv4 }
  , ip := { version := 4
          , flags := ipv4DontFragment
          , id := 1
          , ttl := 64
          , protocol := ipProtocolTCP
          , srcIP := sender.ip
          , dstIP := receiver.ip }
  , tcp := { srcPort := sender.port
           , dstPort := receiver.port
           , syn := sender.flags.syn
           , ack := sender.flags.ack
           , fin := sender.flags.fin
           , seq := sender.seq
           , ackn := sender.ack
           , window := 64000
           , options := match sender.options with
                        | none => none
                        | some opts => some opts }
  , payload := payload }

/-- A TCP connection, mirroring Go's `Conn`: the client peer, the
server peer, the per-phase option sets, and the list of all packets
of this connection. -/
structure Conn where
  client : Peer
  server : Peer
  options : ConnOptions
  packets : List Frame
  deriving DecidableEq, Repr

/-- `createPacket`: synthesizes the frame for (sender, receiver,
payload) and appends it at the end of the connection's packet list,
mirroring the copy-and-append of `c.Packets` in the Go method. -/
def Conn.createPacket (c : Conn) (sender receiver : Peer)
    (payload : Option (List Nat)) : Conn :=
  { c with packets := c.packets ++ [mkFrame sender receiver payload] }

/-- Modulus of Go's `uint32` arithmetic on sequence numbers. -/
def u32 : Nat := 2 ^ 32

/-- Split a character list at every occurrence of the separator,
keeping empty groups, as Go's `strings.Split` does. -/
def splitOnChar (sep : Char) : List Char → List (List Char)
  | [] => [[]]
  | c :: rest =>
    let r := splitOnChar sep rest
    if c = sep then [] :: r
    else
      match r with
      | [] => [[c]]
      | g :: gs => (c :: g) :: gs

/-- Hex digit value, for the hardware-address parser model. -/
def hexDigit (c : Char) : Option Nat :=
  if '0' ≤ c ∧ c ≤ '9' then some (c.toNat - '0'.toNat)
  else if 'a' ≤ c ∧ c ≤ 'f' then some (c.toNat - 'a'.toNat + 10)
  else if 'A' ≤ c ∧ c ≤ 'F' then some (c.toNat - 'A'.toNat + 10)
  else none

/-- Two hex digits forming one byte of a hardware address. -/
def hexByte (cs : List Char) : Option Nat :=
  match cs with
  | [c1, c2] =>
    match hexDigit c1, hexDigit c2 with
    | some h, some l => some (16 * h + l)
    | _, _ => none
  | _ => none

/-- Model of the external standard-library call `net.ParseMAC` on
the 6-octet colon-separated form: returns the address bytes for a
well-formed hardware address and `none` (Go: a non-nil error) for
malformed input. -/
def parseMAC (s : String) : Option (List Nat) :=
  let parts := splitOnChar ':' s.data
  if parts.length = 6 then
    parts.mapM hexByte
  else none

/-- Decimal digit value, for the IPv4 parser model. -/
def decDigit (c : Char) : Option Nat :=
  if '0' ≤ c ∧ c ≤ '9' then some (c.toNat - '0'.toNat) else none

/-- One dotted-decimal field of an IPv4 address: 1 to 3 decimal
digits with value at most 255. -/
def decByte (cs : List Char) : Option Nat :=
  match cs.mapM decDigit with
  | none => none
  | some ds =>
    if ds.length = 0 ∨ 3 < ds.length then none
    else
      let v := ds.foldl (fun a d => 10 * a + d) 0
      if v ≤ 255 then some v else none

/-- Model of the external standard-library call `net.ParseIP` on
dotted-decimal IPv4 input: returns the address bytes for a
well-formed IPv4 address and `none` (Go: a nil `net.IP`) for
malformed input.  Crucially, `net.ParseIP` signals failure only
through its nil return value, never through an error. -/
def parseIP (s : String) : Option (List Nat) :=
  let parts := splitOnChar '.' s.data
  if parts.length = 4 then
    parts.mapM decByte
  else none

/-- `NewPeer`, translated from the Go constructor: parse the MAC
address (on error the Go code calls `log.Fatal`, which aborts the
process before any Peer value exists, modelled as `none`); then call
`net.ParseIP` on the IP string and store its result *unchecked* — a
malformed IP string yields a Peer whose `ip` is nil; sequence number
is the given ISN, all other protocol state is zero-valued. -/
def NewPeer (mac ip : String) (port : Nat) (isn : Nat) : Option Peer :=
  match parseMAC mac with
  | none => none
  | some macAddr =>
    some { mac := macAddr
         , ip := parseIP ip
         , port := port
         , seq := isn
         , ack := 0
         , flags := { syn := false, ack := false, fin := false }
         , options := none }

/-- `NewConn`, translated from the Go constructor: a connection of
the two peers with zero-valued option sets and no packets. -/
def NewConn (client server : Peer) : Conn :=
  { client := client
  , server := server
  , options := { syn := none, synack := none, ack := none }
  , packets := [] }

/-- `Connect`, translated statement by statement from the Go method:
SYN packet from the client (ack 0, SYN-phase options), client
sequence incremented; SYN-ACK packet from the server (ack = client's
incremented sequence, SYNACK-phase options), server sequence
incremented; both peers switched to the ACK-phase options; ACK
packet from the client (ack = server's incremented sequence). -/
def Conn.Connect (c : Conn) : Conn :=
  let c := { c with client := { c.client with
               flags := { syn := true, ack := false, fin := false },
               ack := 0,
               options := c.options.syn } }
  let c := c.createPacket c.client c.server none
  let c := { c with client := { c.client with seq := (c.client.seq + 1) % u32 } }
  let c := { c with server := { c.server with
               flags := { syn := true, ack := true, fin := false },
               ack := c.client.seq,
               options := c.options.synack } }
  let c := c.createPacket c.server c.client none
  let c := { c with server := { c.server with seq := (c.server.seq + 1) % u32 } }
  let c := { c with client := { c.client with options := c.options.ack },
                    server := { c.server with options := c.options.ack } }
  let c := { c with client := { c.client with
               flags := { syn := false, ack := true, fin := false },
               ack := c.server.seq } }
  c.createPacket c.client c.server none

/-- Which of the connection's two peers a `Send` call uses as sender.
The Go method receives `*Peer` pointers that alias `c.Client` and
`c.Server`; the generator always passes the connection's two distinct
peers, in either order, which this selector captures. -/
inductive Role where
  | client : Role
  | server : Role
  deriving DecidableEq, Repr

/-- The opposite role. -/
def Role.other : Role → Role
  | .client => .server
  | .server => .client

/-- The peer a role selects. -/
def Conn.peer (c : Conn) : Role → Peer
  | .client => c.client
  | .server => c.server

/-- Replace the peer a role selects. -/
def Conn.setPeer (c : Conn) : Role → Peer → Conn
  | .client, p => { c with client := p }
  | .server, p => { c with server := p }

/-- `Send`, translated statement by statement from the Go method:
payload packet from the sender (ACK set, ack = receiver's sequence),
sender sequence advanced by `uint32(len(payload))`; then the ACK
packet from the receiver (ack = sender's advanced sequence). -/
def Conn.Send (c : Conn) (sender : Role) (payload : Option (List Nat)) : Conn :=
  let receiver := sender.other
  let c := c.setPeer sender { c.peer sender with
             flags := { syn := false, ack := true, fin := false },
             ack := (c.peer receiver).seq }
  let c := c.createPacket (c.peer sender) (c.peer receiver) payload
  let c := c.setPeer sender { c.peer sender with
             seq := ((c.peer sender).seq + (payload.getD []).length) % u32 }
  let c := c.setPeer receiver { c.peer receiver with
             flags := { syn := false, ack := true, fin := false },
             ack := (c.peer sender).seq }
  c.createPacket (c.peer receiver) (c.peer sender) none

/-- `Disconnect`, translated statement by statement from the Go
method: FIN-ACK packet from the client (ack = server's sequence),
client sequence incremented; FIN-ACK packet from the server (ack =
client's incremented sequence), server sequence incremented; final
ACK packet from the client (ack = server's incremented sequence). -/
def Conn.Disconnect (c : Conn) : Conn :=
  let c := { c with client := { c.client with
               flags := { syn := false, ack := true, fin := true },
               ack := c.server.seq } }
  let c := c.createPacket c.client c.server none
  let c := { c with client := { c.client with seq := (c.client.seq + 1) % u32 } }
  let c := { c with server := { c.server with
               flags := { syn := false, ack := true, fin := true },
               ack := c.client.seq } }
  let c := c.createPacket c.server c.client none
  let c := { c with server := { c.server with seq := (c.server.seq + 1) % u32 } }
  let c := { c with client := { c.client with
               flags := { syn := false, ack := true, fin := false },
               ack := c.server.seq } }
  c.createPacket c.client c.server none

/-- One lifecycle operation of the connection. -/
inductive Op where
  | connect : Op
  | send : Role → Option (List Nat) → Op
  | disconnect : Op
  deriving DecidableEq, Repr

/-- Apply one lifecycle operation. -/
def Conn.runOp (c : Conn) : Op → Conn
  | .connect => c.Connect
  | .send r p => c.Send r p
  | .disconnect => c.Disconnect

/-- Apply a sequence of lifecycle operations in order. -/
def Conn.run (c : Conn) : List Op → Conn
  | [] => c
  | op :: ops => (c.runOp op).run ops

/-- True when the lifecycle operation is a `Connect` call. -/
def Op.isConnect : Op → Bool
  | .connect => true
  | _ => false

/-- True when the operation sequence contains no further `Connect`
call, i.e. consists of `Send` and `Disconnect` calls only. -/
def handshakeFree (ops : List Op) : Bool :=
  ops.all (fun op => !op.isConnect)

/-- The first frame `Connect` synthesizes (the SYN packet): sender is
the client with SYN set, ack 0 and the SYN-phase options. -/
def connectF1 (c : Conn) : Frame :=
  mkFrame
    { c.client with flags := { syn := true, ack := false, fin := false },
                    ack := 0, options := c.options.syn }
    c.server none

/-- The second frame `Connect` synthesizes (the SYN-ACK packet):
sender is the server with SYN and ACK set, ack equal to the client's
incremented sequence, and the SYNACK-phase options. -/
def connectF2 (c : Conn) : Frame :=
  mkFrame
    { c.server with flags := { syn := true, ack := true, fin := false },
                    ack := (c.client.seq + 1) % u32, options := c.options.synack }
    { c.client with flags := { syn := true, ack := false, fin := false },
                    ack := 0, options := c.options.syn,
                    seq := (c.client.seq + 1) % u32 }
    none

/-- The third frame `Connect` synthesizes (the ACK packet): sender is
the client with only ACK set, ack equal to the server's incremented
sequence, and the ACK-phase options. -/
def connectF3 (c : Conn) : Frame :=
  mkFrame
    { c.client with flags := { syn := false, ack := true, fin := false },
                    ack := (c.server.seq + 1) % u32, options := c.options.ack,
                    seq := (c.client.seq + 1) % u32 }
    { c.server with flags := { syn := true, ack := true, fin := false },
                    ack := (c.client.seq + 1) % u32, options := c.options.ack,
                    seq := (c.server.seq + 1) % u32 }
    none

/-- The first frame `Send` synthesizes (the payload packet): sender
with only ACK set and ack equal to the receiver's sequence. -/
def sendF1 (c : Conn) (r : Role) (p : Option (List Nat)) : Frame :=
  mkFrame
    { c.peer r with flags := { syn := false, ack := true, fin := false },
                    ack := (c.peer r.other).seq }
    (c.peer r.other) p

/-- The second frame `Send` synthesizes (the acknowledgment packet):
receiver with only ACK set and ack equal to the sender's sequence
advanced by the payload length. -/
def sendF2 (c : Conn) (r : Role) (p : Option (List Nat)) : Frame :=
  mkFrame
    { c.peer r.other with flags := { syn := false, ack := true, fin := false },
                          ack := ((c.peer r).seq + (p.getD []).length) % u32 }
    { c.peer r with flags := { syn := false, ack := true, fin := false },
                    ack := (c.peer r.other).seq,
                    seq := ((c.peer r).seq + (p.getD []).length) % u32 }
    none

/-- The first frame `Disconnect` synthesizes (the client's FIN-ACK
packet): client with ACK and FIN set, ack equal to the server's
sequence. -/
def discF1 (c : Conn) : Frame :=
  mkFrame
    { c.client with flags := { syn := false, ack := true, fin := true },
                    ack := c.server.seq }
    c.server none

/-- The second frame `Disconnect` synthesizes (the server's FIN-ACK
packet): server with ACK and FIN set, ack equal to the client's
incremented sequence. -/
def discF2 (c : Conn) : Frame :=
  mkFrame
    { c.server with flags := { syn := false, ack := true, fin := true },
                    ack := (c.client.seq + 1) % u32 }
    { c.client with flags := { syn := false, ack := true, fin := true },
                    ack := c.server.seq, seq := (c.client.seq + 1) % u32 }
    none

/-- The third frame `Disconnect` synthesizes (the client's final ACK
packet): client with only ACK set, ack equal to the server's
incremented sequence. -/
def discF3 (c : Conn) : Frame :=
  mkFrame
    { c.client with flags := { syn := false, ack := true, fin := false },
                    ack := (c.server.seq + 1) % u32,
                    seq := (c.client.seq + 1) % u32 }
    { c.server with flags := { syn := false, ack := true, fin := true },
                    ack := (c.client.seq + 1) % u32,
                    seq := (c.server.seq + 1) % u32 }
    none

/-- A maximum-segment-size TCP option used in concrete examples. -/
def mssOpt : TCPOption := { kind := 2, length := 4, data := [5, 180] }

/-- A concrete client peer (MAC 00:00:5e:00:53:01, IP 192.168.1.1,
port 1024, ISN 100), the value `NewPeer` builds for those inputs. -/
def demoClient : Peer :=
  { mac := [0, 0, 94, 0, 83, 1], ip := some [192, 168, 1, 1], port := 1024,
    seq := 100, ack := 0,
    flags := { syn := false, ack := false, fin := false }, options := none }

/-- A concrete server peer (MAC 00:00:5e:00:53:02, IP 192.168.1.2,
port 80, ISN 500), the value `NewPeer` builds for those inputs. -/
def demoServer : Peer :=
  { mac := [0, 0, 94, 0, 83, 2], ip := some [192, 168, 1, 2], port := 80,
    seq := 500, ack := 0,
    flags := { syn := false, ack := false, fin := false }, options := none }

/-- A fresh concrete connection of the two demo peers with no
options, as built by `NewConn`. -/
def demoConn : Conn := NewConn demoClient demoServer

/-- A concrete connection whose SYN and SYNACK option sets hold the
MSS option while the ACK-phase option set is nil. -/
def optConn : Conn :=
  { client := demoClient, server := demoServer,
    options := { syn := some [mssOpt], synack := some [mssOpt], ack := none },
    packets := [] }

/-- The byte content of the payload string "abc". -/
def abcPayload : List Nat := [97, 98, 99]

/-- The scripted exchange of the spec's determinism property: a
fresh connection with ISNs 100 (client) and 500 (server), then
`Connect`, `Send` of "abc" from the client, and `Disconnect`. -/
def scriptRun : Conn :=
  (((NewConn demoClient demoServer).Connect).Send .client (some abcPayload)).Disconnect

/-- The TCP header of a synthesized frame carries exactly the
sender's options slice: the nil slice stays nil, a non-nil slice is
copied verbatim. -/
theorem mkFrame_options (s r : Peer) (p : Option (List Nat)) :
    (mkFrame s r p).tcp.options = s.options := by
  cases h : s.options <;> simp [mkFrame, h]

/-- `Connect` appends exactly the three handshake frames. -/
theorem Connect_packets (c : Conn) :
    (c.Connect).packets = c.packets ++ [connectF1 c, connectF2 c, connectF3 c] := by
  simp [Conn.Connect, Conn.createPacket, connectF1, connectF2, connectF3]

/-- `Connect` increments the client's sequence number once. -/
theorem Connect_client_seq (c : Conn) :
    (c.Connect).client.seq = (c.client.seq + 1) % u32 := rfl

/-- `Connect` increments the server's sequence number once. -/
theorem Connect_server_seq (c : Conn) :
    (c.Connect).server.seq = (c.server.seq + 1) % u32 := rfl

/-- After `Connect` both peers carry the ACK-phase option set. -/
theorem Connect_peer_options (c : Conn) :
    (c.Connect).client.options = c.options.ack ∧
    (c.Connect).server.options = c.options.ack :=
  ⟨rfl, rfl⟩

/-- `Send` appends exactly the payload frame and its acknowledgment. -/
theorem Send_packets (c : Conn) (r : Role) (p : Option (List Nat)) :
    (c.Send r p).packets = c.packets ++ [sendF1 c r p, sendF2 c r p] := by
  cases r <;>
    simp [Conn.Send, Conn.createPacket, Conn.peer, Conn.setPeer, Role.other,
      sendF1, sendF2]

/-- `Send` advances the sender's sequence number by the payload
length. -/
theorem Send_sender_seq (c : Conn) (r : Role) (p : Option (List Nat)) :
    ((c.Send r p).peer r).seq = ((c.peer r).seq + (p.getD []).length) % u32 := by
  cases r <;> rfl

/-- `Send` leaves the receiver's sequence number unchanged. -/
theorem Send_receiver_seq (c : Conn) (r : Role) (p : Option (List Nat)) :
    ((c.Send r p).peer r.other).seq = (c.peer r.other).seq := by
  cases r <;> rfl

/-- `Send` leaves both peers' option slices unchanged. -/
theorem Send_peer_options (c : Conn) (r : Role) (p : Option (List Nat)) :
    (c.Send r p).client.options = c.client.options ∧
    (c.Send r p).server.options = c.server.options := by
  cases r <;> exact ⟨rfl, rfl⟩

/-- `Disconnect` appends exactly the two FIN-ACK frames and the
final ACK frame. -/
theorem Disconnect_packets (c : Conn) :
    (c.Disconnect).packets = c.packets ++ [discF1 c, discF2 c, discF3 c] := by
  simp [Conn.Disconnect, Conn.createPacket, discF1, discF2, discF3]

/-- `Disconnect` increments the client's sequence number once. -/
theorem Disconnect_client_seq (c : Conn) :
    (c.Disconnect).client.seq = (c.client.seq + 1) % u32 := rfl

/-- `Disconnect` increments the server's sequence number once. -/
theorem Disconnect_server_seq (c : Conn) :
    (c.Disconnect).server.seq = (c.server.seq + 1) % u32 := rfl

/-- `Disconnect` leaves both peers' option slices unchanged. -/
theorem Disconnect_peer_options (c : Conn) :
    (c.Disconnect).client.options = c.client.options ∧
    (c.Disconnect).server.options = c.server.options :=
  ⟨rfl, rfl⟩

/-- Every single lifecycle operation only appends to the packet
store. -/
theorem runOp_packets_prefix (c : Conn) (op : Op) :
    ∃ t, (c.runOp op).packets = c.packets ++ t := by
  cases op with
  | connect => exact ⟨_, Connect_packets c⟩
  | send r p => exact ⟨_, Send_packets c r p⟩
  | disconnect => exact ⟨_, Disconnect_packets c⟩

/-- Every sequence of lifecycle operations only appends to the
packet store: the prior store is a prefix of the resulting store. -/
theorem run_packets_prefix : ∀ (ops : List Op) (c : Conn),
    ∃ t, (c.run ops).packets = c.packets ++ t
  | [], c => ⟨[], by simp [Conn.run]⟩
  | op :: ops, c => by
    obtain ⟨t1, h1⟩ := runOp_packets_prefix c op
    obtain ⟨t2, h2⟩ := run_packets_prefix ops (c.runOp op)
    exact ⟨t1 ++ t2, by rw [Conn.run, h2, h1, List.append_assoc]⟩

/-- A `Send` or `Disconnect` call keeps both peers' option slices
equal to `X` and only appends frames whose TCP options equal `X`. -/
theorem runOp_options (X : Option (List TCPOption)) (c : Conn) (op : Op)
    (hop : op.isConnect = false)
    (h1 : c.client.options = X) (h2 : c.server.options = X) :
    (c.runOp op).client.options = X ∧ (c.runOp op).server.options = X ∧
    ∀ f ∈ (c.runOp op).packets, f ∈ c.packets ∨ f.tcp.options = X := by
  cases op with
  | connect => simp [Op.isConnect] at hop
  | send r p =>
    have hpeer : ∀ r' : Role, (c.peer r').options = X := by
      intro r'; cases r' <;> assumption
    refine ⟨(Send_peer_options c r p).1.trans h1,
            (Send_peer_options c r p).2.trans h2, ?_⟩
    intro f hf
    rw [show c.runOp (.send r p) = c.Send r p from rfl, Send_packets] at hf
    rcases List.mem_append.1 hf with h | h
    · exact .inl h
    · right
      rcases List.mem_cons.1 h with h' | h'
      · rw [h', sendF1, mkFrame_options]; exact hpeer r
      · rcases List.mem_cons.1 h' with h'' | h''
        · rw [h'', sendF2, mkFrame_options]; exact hpeer r.other
        · simp at h''
  | disconnect =>
    refine ⟨(Disconnect_peer_options c).1.trans h1,
            (Disconnect_peer_options c).2.trans h2, ?_⟩
    intro f hf
    rw [show c.runOp .disconnect = c.Disconnect from rfl,
        Disconnect_packets] at hf
    rcases List.mem_append.1 hf with h | h
    · exact .inl h
    · right
      rcases List.mem_cons.1 h with h' | h'
      · rw [h', discF1, mkFrame_options]; exact h1
      · rcases List.mem_cons.1 h' with h'' | h''
        · rw [h'', discF2, mkFrame_options]; exact h2
        · rcases List.mem_cons.1 h'' with h3 | h3
          · rw [h3, discF3, mkFrame_options]; exact h1
          · simp at h3

/-- Across any `Connect`-free sequence of lifecycle operations, both
peers keep option slice `X` and every newly appended frame carries
TCP options `X`. -/
theorem run_options (X : Option (List TCPOption)) : ∀ (ops : List Op) (c : Conn),
    handshakeFree ops = true →
    c.client.options = X → c.server.options = X →
    ((c.run ops).client.options = X ∧ (c.run ops).server.options = X ∧
      ∀ f ∈ (c.run ops).packets, f ∈ c.packets ∨ f.tcp.options = X)
  | [], _ => fun _ h1 h2 => ⟨h1, h2, fun _ hf => .inl hf⟩
  | op :: ops, c => by
    intro hfree h1 h2
    have hfree2 : (!op.isConnect) = true ∧ handshakeFree ops = true := by
      simpa [handshakeFree, List.all_cons, Bool.and_eq_true] using hfree
    have hop : op.isConnect = false := by simpa using hfree2.1
    obtain ⟨g1, g2, g3⟩ := runOp_options X c op hop h1 h2
    obtain ⟨i1, i2, i3⟩ := run_options X ops (c.runOp op) hfree2.2 g1 g2
    refine ⟨i1, i2, ?_⟩
    intro f hf
    rcases i3 f hf with h | h
    · exact g3 f h
    · exact .inr h

/-- Claim C1 counterexample: constructing a peer from a well-formed
hardware address and the malformed IPv4 string "not-an-ip" does not
fail — `net.ParseIP` returns nil, the result is never checked, and a
Peer with a nil network address is produced. -/
theorem newPeer_malformed_ip_still_builds_peer :
    NewPeer "00:00:5e:00:53:01" "not-an-ip" 80 100
      = some { mac := [0, 0, 94, 0, 83, 1], ip := none, port := 80, seq := 100,
               ack := 0,
               flags := { syn := false, ack := false, fin := false },
               options := none } ∧
    parseIP "not-an-ip" = none :=
  ⟨rfl, rfl⟩

/-- Claim C1 (amended): a malformed hardware address makes `NewPeer` abort
without producing a Peer, while a malformed IPv4 string is not
rejected at all: `NewPeer` stores the nil result of `net.ParseIP`
unchecked and still produces a Peer. -/
theorem newPeer_mac_checked_ip_unchecked (mac ip : String) (port isn : Nat) :
    (parseMAC mac = none → NewPeer mac ip port isn = none) ∧
    (∀ m, parseMAC mac = some m →
      NewPeer mac ip port isn
        = some { mac := m, ip := parseIP ip, port := port, seq := isn, ack := 0,
                 flags := { syn := false, ack := false, fin := false },
                 options := none }) := by
  constructor
  · intro h; simp only [NewPeer]; rw [h]
  · intro m h; simp only [NewPeer]; rw [h]

/-- Witness for claim C1 (amended): the malformed hardware address "xyz"
produces no Peer, while a well-formed address pair produces the
expected Peer value. -/
theorem newPeer_mac_checked_ip_unchecked_witness :
    NewPeer "xyz" "192.168.1.1" 80 100 = none ∧
    NewPeer "00:00:5e:00:53:02" "192.168.1.2" 80 500
      = some { mac := [0, 0, 94, 0, 83, 2], ip := some [192, 168, 1, 2],
               port := 80, seq := 500, ack := 0,
               flags := { syn := false, ack := false, fin := false },
               options := none } := by
  constructor
  · exact (newPeer_mac_checked_ip_unchecked "xyz" "192.168.1.1" 80 100).1 rfl
  · exact ((newPeer_mac_checked_ip_unchecked "00:00:5e:00:53:02" "192.168.1.2"
      80 500).2 [0, 0, 94, 0, 83, 2] rfl).trans (by rfl)

/-- Claim C2: on any connection, one `Connect` call appends exactly three
frames — SYN from client to server, SYN-ACK from server to client,
ACK from client to server — and each peer's sequence number advances
by exactly one modulo 2^32. -/
theorem connect_three_way_handshake (c : Conn) :
    ∃ f1 f2 f3 : Frame,
      (c.Connect).packets = c.packets ++ [f1, f2, f3] ∧
      f1.tcp.syn = true ∧ f1.tcp.ack = false ∧ f1.tcp.fin = false ∧
      f1.eth.srcMAC = c.client.mac ∧ f1.eth.dstMAC = c.server.mac ∧
      f1.ip.srcIP = c.client.ip ∧ f1.ip.dstIP = c.server.ip ∧
      f2.tcp.syn = true ∧ f2.tcp.ack = true ∧ f2.tcp.fin = false ∧
      f2.eth.srcMAC = c.server.mac ∧ f2.eth.dstMAC = c.client.mac ∧
      f2.ip.srcIP = c.server.ip ∧ f2.ip.dstIP = c.client.ip ∧
      f3.tcp.syn = false ∧ f3.tcp.ack = true ∧ f3.tcp.fin = false ∧
      f3.eth.srcMAC = c.client.mac ∧ f3.eth.dstMAC = c.server.mac ∧
      (c.Connect).client.seq = (c.client.seq + 1) % u32 ∧
      (c.Connect).server.seq = (c.server.seq + 1) % u32 :=
  ⟨connectF1 c, connectF2 c, connectF3 c, Connect_packets c,
   rfl, rfl, rfl, rfl, rfl, rfl, rfl, rfl, rfl, rfl, rfl, rfl, rfl, rfl,
   rfl, rfl, rfl, rfl, rfl, rfl, rfl⟩

/-- Claim C3: on any connection, one `Send` call appends exactly two
frames — the payload frame from sender to receiver and then the
acknowledgment from receiver to sender — and the sender's sequence
number advances by the payload length modulo 2^32; for a zero-length
payload the sender's sequence number is unchanged. -/
theorem send_data_and_ack_frames (c : Conn) (sender : Role)
    (payload : Option (List Nat)) (hseq : (c.peer sender).seq < u32) :
    ∃ fd fa : Frame,
      (c.Send sender payload).packets = c.packets ++ [fd, fa] ∧
      fd.eth.srcMAC = (c.peer sender).mac ∧
      fd.eth.dstMAC = (c.peer sender.other).mac ∧
      fd.tcp.srcPort = (c.peer sender).port ∧
      fd.tcp.dstPort = (c.peer sender.other).port ∧
      fd.payload = payload ∧
      fa.eth.srcMAC = (c.peer sender.other).mac ∧
      fa.eth.dstMAC = (c.peer sender).mac ∧
      fa.payload = none ∧
      ((c.Send sender payload).peer sender).seq
        = ((c.peer sender).seq + (payload.getD []).length) % u32 ∧
      ((payload.getD []).length = 0 →
        ((c.Send sender payload).peer sender).seq = (c.peer sender).seq) :=
  ⟨sendF1 c sender payload, sendF2 c sender payload,
   Send_packets c sender payload,
   rfl, rfl, rfl, rfl, rfl, rfl, rfl, rfl,
   Send_sender_seq c sender payload,
   fun h0 => by
     rw [Send_sender_seq, h0, Nat.add_zero, Nat.mod_eq_of_lt hseq]⟩

/-- Witness for claim C3: on the concrete demo connection, sending an
empty (nil) payload still appends two frames and leaves the client's
sequence number unchanged. -/
theorem send_data_and_ack_frames_witness :
    (demoConn.Send .client none).packets.length
      = demoConn.packets.length + 2 ∧
    ((demoConn.Send .client none).peer .client).seq
      = (demoConn.peer .client).seq := by
  obtain ⟨fd, fa, h1, -, -, -, -, -, -, -, -, -, h11⟩ :=
    send_data_and_ack_frames demoConn .client none (by decide)
  exact ⟨by rw [h1]; simp, h11 rfl⟩

/-- Claim C4: on any connection, one `Disconnect` call appends exactly
three frames — FIN-ACK from client to server, FIN-ACK from server to
client, final ACK from client to server — and each peer's sequence
number advances by exactly one modulo 2^32. -/
theorem disconnect_close_frames (c : Conn) :
    ∃ g1 g2 g3 : Frame,
      (c.Disconnect).packets = c.packets ++ [g1, g2, g3] ∧
      g1.tcp.fin = true ∧ g1.tcp.ack = true ∧ g1.tcp.syn = false ∧
      g1.eth.srcMAC = c.client.mac ∧ g1.eth.dstMAC = c.server.mac ∧
      g2.tcp.fin = true ∧ g2.tcp.ack = true ∧ g2.tcp.syn = false ∧
      g2.eth.srcMAC = c.server.mac ∧ g2.eth.dstMAC = c.client.mac ∧
      g3.tcp.fin = false ∧ g3.tcp.ack = true ∧ g3.tcp.syn = false ∧
      g3.eth.srcMAC = c.client.mac ∧ g3.eth.dstMAC = c.server.mac ∧
      (c.Disconnect).client.seq = (c.client.seq + 1) % u32 ∧
      (c.Disconnect).server.seq = (c.server.seq + 1) % u32 :=
  ⟨discF1 c, discF2 c, discF3 c, Disconnect_packets c,
   rfl, rfl, rfl, rfl, rfl, rfl, rfl, rfl, rfl, rfl, rfl, rfl, rfl, rfl, rfl,
   rfl, rfl⟩

/-- Claim C5: in every ACK-flagged frame emitted by `Connect`, `Send` or
`Disconnect`, the acknowledgment field equals the counterpart peer's
sequence number as it stands at synthesis time, i.e. immediately
after that counterpart's most recent increment: the SYN-ACK
acknowledges the client's incremented sequence, the handshake ACK
the server's incremented sequence, the data frame the receiver's
current sequence, the data acknowledgment the sender's advanced
sequence, and the teardown frames the respective incremented
sequences. -/
theorem ack_fields_track_counterpart (c : Conn) (sender : Role)
    (payload : Option (List Nat)) :
    (∃ f1 f2 f3 : Frame,
      (c.Connect).packets = c.packets ++ [f1, f2, f3] ∧
      f1.tcp.ack = false ∧ f1.tcp.ackn = 0 ∧
      f2.tcp.ack = true ∧ f2.tcp.ackn = (c.client.seq + 1) % u32 ∧
      f3.tcp.ack = true ∧ f3.tcp.ackn = (c.server.seq + 1) % u32) ∧
    (∃ fd fa : Frame,
      (c.Send sender payload).packets = c.packets ++ [fd, fa] ∧
      fd.tcp.ack = true ∧ fd.tcp.ackn = (c.peer sender.other).seq ∧
      fa.tcp.ack = true ∧
      fa.tcp.ackn = ((c.peer sender).seq + (payload.getD []).length) % u32) ∧
    (∃ g1 g2 g3 : Frame,
      (c.Disconnect).packets = c.packets ++ [g1, g2, g3] ∧
      g1.tcp.ack = true ∧ g1.tcp.ackn = c.server.seq ∧
      g2.tcp.ack = true ∧ g2.tcp.ackn = (c.client.seq + 1) % u32 ∧
      g3.tcp.ack = true ∧ g3.tcp.ackn = (c.server.seq + 1) % u32) :=
  ⟨⟨connectF1 c, connectF2 c, connectF3 c, Connect_packets c,
    rfl, rfl, rfl, rfl, rfl, rfl⟩,
   ⟨sendF1 c sender payload, sendF2 c sender payload,
    Send_packets c sender payload, rfl, rfl, rfl, rfl⟩,
   ⟨discF1 c, discF2 c, discF3 c, Disconnect_packets c,
    rfl, rfl, rfl, rfl, rfl, rfl⟩⟩

/-- Claim C6 counterexample: on a connection whose SYN-phase option set is
the MSS option and whose ACK-phase option set is nil, a second
`Connect` call — a lifecycle operation performed after `Connect` has
completed (the first call emitted exactly 3 frames) — synthesizes a
fourth frame whose TCP options are the SYN-phase set, not the
ACK-phase set. -/
theorem second_connect_emits_syn_options :
    (optConn.Connect).packets.length = 3 ∧
    ((optConn.Connect).Connect).packets[3]?.map (fun f => f.tcp.options)
      = some (some [mssOpt]) ∧
    optConn.options.ack = none ∧
    some [mssOpt] ≠ (none : Option (List TCPOption)) := by
  refine ⟨rfl, rfl, rfl, by simp⟩

/-- Claim C6 (amended): during `Connect` the three handshake frames carry
the SYN-, SYN-ACK- and ACK-phase option sets respectively, and every
frame synthesized by `Send` or `Disconnect` calls after `Connect`
has completed carries the ACK-phase option set, for both peers (a
repeated `Connect` call would again emit SYN- and SYN-ACK-phase
options). -/
theorem connect_option_phases (c : Conn) (ops : List Op)
    (h : handshakeFree ops = true) :
    ∃ f1 f2 f3 : Frame,
      (c.Connect).packets = c.packets ++ [f1, f2, f3] ∧
      f1.tcp.options = c.options.syn ∧
      f2.tcp.options = c.options.synack ∧
      f3.tcp.options = c.options.ack ∧
      ∀ f ∈ ((c.Connect).run ops).packets,
        f ∈ (c.Connect).packets ∨ f.tcp.options = c.options.ack := by
  obtain ⟨-, -, h3⟩ := run_options (c.options.ack) ops (c.Connect) h
    (Connect_peer_options c).1 (Connect_peer_options c).2
  exact ⟨connectF1 c, connectF2 c, connectF3 c, Connect_packets c,
    mkFrame_options _ _ _, mkFrame_options _ _ _, mkFrame_options _ _ _, h3⟩

/-- Witness for claim C6 (amended): on the concrete demo connection with a
send of "abc" and a disconnection after the handshake. -/
theorem connect_option_phases_witness :
    handshakeFree [Op.send .client (some abcPayload), Op.disconnect] = true ∧
    ∃ f1 f2 f3 : Frame,
      (demoConn.Connect).packets = demoConn.packets ++ [f1, f2, f3] ∧
      f1.tcp.options = demoConn.options.syn ∧
      f2.tcp.options = demoConn.options.synack ∧
      f3.tcp.options = demoConn.options.ack ∧
      ∀ f ∈ ((demoConn.Connect).run
               [Op.send .client (some abcPayload), Op.disconnect]).packets,
        f ∈ (demoConn.Connect).packets ∨ f.tcp.options = demoConn.options.ack :=
  ⟨rfl, connect_option_phases demoConn
    [Op.send .client (some abcPayload), Op.disconnect] rfl⟩

/-- Claim C7: the TCP header of every synthesized frame carries the
sender's options slice verbatim when it is non-nil (including the
empty slice) and carries no options when it is nil; the nil and
empty-slice states remain observably distinct in the synthesized
frame. -/
theorem sender_options_written_verbatim (s r : Peer) (p : Option (List Nat)) :
    (mkFrame s r p).tcp.options = s.options ∧
    (∀ opts, s.options = some opts → (mkFrame s r p).tcp.options = some opts) ∧
    (s.options = none → (mkFrame s r p).tcp.options = none) ∧
    (mkFrame { s with options := some [] } r p).tcp.options
      ≠ (mkFrame { s with options := none } r p).tcp.options := by
  refine ⟨mkFrame_options s r p, ?_, ?_, ?_⟩
  · intro opts h; rw [mkFrame_options, h]
  · intro h; rw [mkFrame_options, h]
  · rw [mkFrame_options, mkFrame_options]; simp

/-- Witness for claim C7: concrete frames with an explicit empty option
slice and with a nil option slice. -/
theorem sender_options_written_verbatim_witness :
    (mkFrame { demoClient with options := some [mssOpt] } demoServer
        none).tcp.options = some [mssOpt] ∧
    (mkFrame demoClient demoServer none).tcp.options = none :=
  ⟨(sender_options_written_verbatim { demoClient with options := some [mssOpt] }
      demoServer none).2.1 [mssOpt] rfl,
   (sender_options_written_verbatim demoClient demoServer none).2.2.1 rfl⟩

/-- Claim C8: `createPacket` appends exactly one frame at the end of the
packet store leaving all previously stored frames unchanged in
content and position, and across any sequence of lifecycle
operations the prior store stays a prefix of the resulting store: no
frame is ever removed or reordered, so store order equals generation
order. -/
theorem packet_store_append_only (c : Conn) (sender receiver : Peer)
    (payload : Option (List Nat)) (ops : List Op) :
    (c.createPacket sender receiver payload).packets
      = c.packets ++ [mkFrame sender receiver payload] ∧
    ∃ t, (c.run ops).packets = c.packets ++ t :=
  ⟨rfl, run_packets_prefix ops c⟩

/-- Claim C9: the scripted exchange — `Connect`, `Send` of "abc" from the
client, `Disconnect` — on a fresh connection with client ISN 100 and
server ISN 500 produces exactly 8 frames (3+2+3) with these exact
sequence and acknowledgment fields, and the generator is
deterministic: two runs from equal initial connections yield equal
packet stores. -/
theorem scripted_exchange_deterministic :
    (∀ c c' : Conn, c = c' →
      (((c.Connect).Send .client (some abcPayload)).Disconnect).packets
        = (((c'.Connect).Send .client (some abcPayload)).Disconnect).packets) ∧
    scriptRun.packets.length = 8 ∧
    scriptRun.packets.map (fun f => (f.tcp.seq, f.tcp.ackn))
      = [(100, 0), (500, 101), (101, 501), (101, 501),
         (501, 104), (104, 501), (501, 105), (105, 502)] :=
  ⟨fun _ _ h => by rw [h], rfl, rfl⟩

/-- Witness for claim C9: determinism applied to two (equal) fresh demo
connections. -/
theorem scripted_exchange_deterministic_witness :
    ((((NewConn demoClient demoServer).Connect).Send .client
        (some abcPayload)).Disconnect).packets
      = ((((NewConn demoClient demoServer).Connect).Send .client
        (some abcPayload)).Disconnect).packets :=
  scripted_exchange_deterministic.1 (NewConn demoClient demoServer)
    (NewConn demoClient demoServer) rfl

/-- Claim C10: the lifecycle operations check no connection phase: from
any prior connection state, a repeated `Connect` appends 3 more
frames and increments both sequence numbers again, `Send` always
appends its 2 frames, `Disconnect` always appends its 3 frames, and
`Connect` unconditionally overwrites the client's flags and
acknowledgment field. -/
theorem lifecycle_ops_ignore_phase (c : Conn) (sender : Role)
    (payload : Option (List Nat)) :
    ((c.Connect).Connect).packets.length = c.packets.length + 6 ∧
    ((c.Connect).Connect).client.seq = ((c.client.seq + 1) % u32 + 1) % u32 ∧
    ((c.Connect).Connect).server.seq = ((c.server.seq + 1) % u32 + 1) % u32 ∧
    (c.Send sender payload).packets.length = c.packets.length + 2 ∧
    (c.Disconnect).packets.length = c.packets.length + 3 ∧
    (c.Connect).client.flags = { syn := false, ack := true, fin := false } ∧
    (c.Connect).client.ack = (c.server.seq + 1) % u32 := by
  refine ⟨?_, rfl, rfl, ?_, ?_, rfl, rfl⟩
  · rw [Connect_packets, Connect_packets]; simp
  · rw [Send_packets]; simp
  · rw [Disconnect_packets]; simp

end PacketGo
